import Mathlib

/-!
Verification development for the cinematic-video-optimizer HTTP service.

The service has two source files:
  - main.py      : a FastAPI app with GET /, POST /optimize-video (multipart)
                   and POST /optimize-video-url (JSON / data-URL payloads);
  - api/index.py : a serverless BaseHTTPRequestHandler with do_GET and do_POST.

The embedding below models each handler as a pure function of the parsed
request together with oracles for the external collaborators (the cloud
provider's upload call, its poster-URL builder, and base64 decoding).
Python's process-salted string hash is a parameter (pyhash).  Machine-level
details that no observable behaviour depends on (the random temporary file
name) are represented by a fixed placeholder path; whether a temporary file
was created and whether it was deleted is tracked explicitly so that the
cleanup properties can be stated.
-/

namespace Cinematic

/-- Python exceptions that can cross the handlers' try/except boundaries:
FastAPI HTTPException (whose str() is "status: detail") and any other
exception, carried as its message text. -/
inductive PyExc where
  | http (status : Nat) (detail : String)
  | generic (msg : String)
deriving Repr, DecidableEq

/-- str(e) for the exceptions above; starlette's HTTPException.__str__
returns f"{self.status_code}: {self.detail}". -/
def pyExcStr : PyExc → String
  | .http s d => toString s ++ ": " ++ d
  | .generic m => m

/-- One entry of the eager derivative list requested from the provider.
The three call sites request different option subsets, hence the Options. -/
structure EagerSpec where
  format : String
  quality : String
  width : Nat
  height : Nat
  crop : Option String
  fetch_format : Option String
  flags : Option String
deriving Repr, DecidableEq

/-- Arguments of cloudinary.uploader.upload as passed by the three call
sites. -/
structure UploadParams where
  filePath : String
  resource_type : String
  public_id : String
  overwrite : Bool
  eager : List EagerSpec
  eager_async : Bool
deriving Repr, DecidableEq

/-- One element of the provider's eager result list. -/
structure EagerEntry where
  secure_url : String
deriving Repr, DecidableEq

/-- The provider's upload response, as the handlers read it. -/
structure UploadResult where
  secure_url : String
  public_id : String
  eager : List EagerEntry
deriving Repr, DecidableEq

/-- Oracles for the external collaborators: the provider's upload call
(raising is modelled as Except.error with the exception text), the
CloudinaryImage(...).build_url poster construction (a pure function of the
public id; the fixed transformation options are constants at each call
site), and base64.b64decode (raising likewise modelled as Except.error). -/
structure Cloud where
  upload : UploadParams → Except String UploadResult
  buildPosterUrl : String → String
  b64decode : String → Except String (List UInt8)

/-- An HTTP outcome: a 200 JSON body, or an error status with detail. -/
inductive Response (β : Type) where
  | ok (body : β)
  | err (status : Nat) (detail : String)
deriving Repr, DecidableEq

/-- The HTTP status code of a response (FastAPI's JSONResponse defaults
to 200). -/
def Response.status {β : Type} : Response β → Nat
  | .ok _ => 200
  | .err s _ => s

/-- Models Python str.lower() (faithful on the ASCII range), written over
the character list. -/
def pyLower (s : String) : String := String.mk (s.data.map Char.toLower)

/-- Models Python str.replace(' ', '-'): a single-character replace is a
per-character map. -/
def pyReplaceSpaceHyphen (s : String) : String :=
  String.mk (s.data.map fun c => if c = ' ' then '-' else c)

/-- projectName.lower().replace(' ', '-') as used in all three public ids. -/
def pySlug (s : String) : String := pyReplaceSpaceHyphen (pyLower s)

/-- Models Python s.startswith(pre): the first len(pre) characters equal
pre. -/
def pyStartsWith (s pre : String) : Bool :=
  s.data.take pre.data.length == pre.data

/-- Splits a character list at its first comma, if any. -/
def splitFirstComma : List Char → Option (List Char × List Char)
  | [] => none
  | c :: cs =>
    if c = ',' then some ([], cs)
    else
      match splitFirstComma cs with
      | none => none
      | some (a, b) => some (c :: a, b)

/-- Models Python s.split(",", 1) under tuple unpacking into two names:
none when there is no comma (the unpacking then raises ValueError),
otherwise the part before the first comma and everything after it. -/
def pySplitOnce (s : String) : Option (String × String) :=
  match splitFirstComma s.data with
  | none => none
  | some (a, b) => some (String.mk a, String.mk b)

/-- public_id of main.py's two endpoints:
f"cinematic-{name.lower().replace(' ', '-')}-{hash(email) % 10000}".
pyhash is Python's process-salted hash; % is Python floor-mod, which
agrees with Int.emod for the positive modulus 10000. -/
def main_public_id (pyhash : String → Int) (projectName customerEmail : String) : String :=
  "cinematic-" ++ pySlug projectName ++ "-" ++ toString (pyhash customerEmail % 10000)

/-- public_id of api/index.py's do_POST:
f"cinematic-{project_name.lower().replace(' ', '-')}" (no email hash). -/
def handler_public_id (projectName : String) : String :=
  "cinematic-" ++ pySlug projectName

/-- The eager list requested by POST /optimize-video. -/
def mainEager : List EagerSpec :=
  [⟨"mp4", "auto:eco", 1280, 720, some "scale", some "auto", some "streaming_optimization"⟩,
   ⟨"webm", "auto:eco", 1280, 720, some "scale", some "auto", some "streaming_optimization"⟩]

/-- The eager list requested by POST /optimize-video-url. -/
def urlEager : List EagerSpec :=
  [⟨"mp4", "auto:eco", 1280, 720, some "scale", none, none⟩,
   ⟨"webm", "auto:eco", 1280, 720, some "scale", none, none⟩]

/-- The eager list requested by the serverless handler. -/
def handlerEager : List EagerSpec :=
  [⟨"mp4", "auto:eco", 1280, 720, none, none, none⟩,
   ⟨"webm", "auto:eco", 1280, 720, none, none, none⟩]

/-- Placeholder for the unique temporary file path produced by
tempfile.NamedTemporaryFile; no observable behaviour depends on its text. -/
def tempFilePath : String := "/tmp/tmpXXXXXXXX.mp4"

/-- The upload arguments built by POST /optimize-video. -/
def main_upload_params (pyhash : String → Int) (projectName customerEmail : String) :
    UploadParams :=
  { filePath := tempFilePath
    resource_type := "video"
    public_id := main_public_id pyhash projectName customerEmail
    overwrite := true
    eager := mainEager
    eager_async := false }

/-- The upload arguments built by POST /optimize-video-url; the file path is
the temp file on the data-URL branch and the raw videoFile string on the
other branch. -/
def url_upload_params (pyhash : String → Int) (filePath projectName customerEmail : String) :
    UploadParams :=
  { filePath := filePath
    resource_type := "video"
    public_id := main_public_id pyhash projectName customerEmail
    overwrite := true
    eager := urlEager
    eager_async := false }

/-- The upload arguments built by the serverless handler's do_POST. -/
def handler_upload_params (projectName : String) : UploadParams :=
  { filePath := tempFilePath
    resource_type := "video"
    public_id := handler_public_id projectName
    overwrite := true
    eager := handlerEager
    eager_async := false }

/-- "s contains t as a substring", phrased over the character lists. -/
def strContains (s t : String) : Prop :=
  ∃ a b : List Char, s.data = a ++ t.data ++ b

/-- mp4 extraction shared verbatim by the three handlers:
upload_result['eager'][0]['secure_url'] if upload_result['eager'] else original. -/
def pickMp4 (r : UploadResult) : String :=
  match r.eager with
  | [] => r.secure_url
  | e :: _ => e.secure_url

/-- webm extraction shared verbatim by the three handlers:
upload_result['eager'][1]['secure_url'] if len(upload_result['eager']) > 1 else original. -/
def pickWebm (r : UploadResult) : String :=
  match r.eager with
  | _ :: e :: _ => e.secure_url
  | _ => r.secure_url

/-- The health-check body: {"message": ..., "status": ...}. -/
structure HealthBody where
  message : String
  status : String
deriving Repr, DecidableEq

namespace Main

/-- The template text of main.py's generate_embed_code before the poster
substitution point. -/
def tplHead : String :=
  "<!-- Cinematic Landing Page Video - Optimized by CinematicLandingPage.com -->\n" ++
  "<div class=\"cinematic-hero\" style=\"position: relative; width: 100%; height: 100vh; overflow: hidden;\">\n" ++
  "  <video \n" ++
  "    style=\"\n" ++
  "      position: absolute;\n" ++
  "      top: 50%;\n" ++
  "      left: 50%;\n" ++
  "      min-width: 100%;\n" ++
  "      min-height: 100%;\n" ++
  "      width: auto;\n" ++
  "      height: auto;\n" ++
  "      transform: translate(-50%, -50%);\n" ++
  "      object-fit: cover;\n" ++
  "      z-index: -1;\n" ++
  "    \"\n" ++
  "    autoplay \n" ++
  "    muted \n" ++
  "    loop \n" ++
  "    playsinline \n" ++
  "    preload=\"auto\"\n" ++
  "    "

/-- The template text of main.py's generate_embed_code after the mp4
source element. -/
def tplTail : String :=
  "\n    Your browser does not support the video tag.\n" ++
  "  </video>\n" ++
  "  \n" ++
  "  <!-- Your content goes here -->\n" ++
  "  <div style=\"position: relative; z-index: 1; padding: 2rem; color: white; text-align: center; display: flex; flex-direction: column; justify-content: center; height: 100vh;\">\n" ++
  "    <h1 style=\"font-size: 3rem; margin-bottom: 1rem;\">Your Landing Page Headline</h1>\n" ++
  "    <p style=\"font-size: 1.2rem; margin-bottom: 2rem;\">Replace this with your actual content</p>\n" ++
  "    <button style=\"background: #007cba; color: white; border: none; padding: 1rem 2rem; border-radius: 5px; font-size: 1.1rem; cursor: pointer;\">Call to Action</button>\n" ++
  "  </div>\n" ++
  "</div>\n" ++
  "\n" ++
  "<style>\n" ++
  "/* Responsive adjustments */\n" ++
  "@media (max-width: 768px) \x7b\n" ++
  "  .cinematic-hero \x7b\n" ++
  "    height: 60vh; /* Shorter on mobile to save bandwidth */\n" ++
  "  \x7d\n" ++
  "  .cinematic-hero h1 \x7b\n" ++
  "    font-size: 2rem;\n" ++
  "  \x7d\n" ++
  "\x7d\n" ++
  "\n" ++
  "/* Ensure video doesn\x27t interfere with content */\n" ++
  ".cinematic-hero video \x7b\n" ++
  "  pointer-events: none;\n" ++
  "\x7d\n" ++
  "</style>\n" ++
  "\n" ++
  "<!-- Performance: Video loads immediately for hero sections -->"

/-- main.py generate_embed_code: the f-string template with the three URLs
substituted, written as the concatenation of its literal pieces around the
substitution points. -/
def generate_embed_code (mp4_url webm_url poster_url : String) : String :=
  tplHead ++ ("poster=\"" ++ poster_url ++ "\">") ++ "\n    " ++
  ("<source src=\"" ++ webm_url ++ "\" type=\"video/webm\">") ++ "\n    " ++
  ("<source src=\"" ++ mp4_url ++ "\" type=\"video/mp4\">") ++ tplTail

/-- GET / : returns the health dict; FastAPI serialises it with status 200. -/
def root : Nat × HealthBody :=
  (200, ⟨"Cinematic Video Optimizer API is running!", "healthy"⟩)

/-- One file entry of the /optimize-video success body. -/
structure FileEntry where
  url : String
  format : String
  description : String
deriving Repr, DecidableEq

/-- The /optimize-video success body (the constant instructions and
technicalSpecs blocks, which no claim touches, are omitted). -/
structure MainBody where
  success : Bool
  message : String
  mp4 : FileEntry
  webm : FileEntry
  poster : FileEntry
  embedCode : String
deriving Repr, DecidableEq

/-- A multipart request to POST /optimize-video as FastAPI hands it to the
handler: the declared content type, the uploaded bytes and the two form
fields. -/
structure MultipartRequest where
  contentType : String
  content : List UInt8
  projectName : String
  customerEmail : String

/-- The response-mapping block of POST /optimize-video: URL extraction with
the eager fallbacks, poster construction from the provider's public_id, and
embed generation. -/
def mainSuccessBody (cloud : Cloud) (r : UploadResult) : MainBody :=
  let mp4_url := pickMp4 r
  let webm_url := pickWebm r
  let poster_url := cloud.buildPosterUrl r.public_id
  { success := true
    message := "Video optimized successfully!"
    mp4 := ⟨mp4_url, "MP4 (H.264)", "Best compatibility across all devices"⟩
    webm := ⟨webm_url, "WebM (VP9)", "Smaller file size for modern browsers"⟩
    poster := ⟨poster_url, "JPG", "Preview image for instant loading"⟩
    embedCode := generate_embed_code mp4_url webm_url poster_url }

/-- POST /optimize-video.  Mirrors the source's control flow: the whole body
sits in one try block whose except Exception clause re-raises every
exception, the handler's own HTTPException(400) included, as
HTTPException(500, "Failed to process video: " + str(e)).  The second
component records the temp file's fate: none = never created, some true =
created and deleted, some false = created and left on disk.  The inner
try/finally deletes the temp file on both provider outcomes. -/
def optimize_video (pyhash : String → Int) (cloud : Cloud) (req : MultipartRequest) :
    Response MainBody × Option Bool :=
  if pyStartsWith req.contentType "video/" then
    match cloud.upload (main_upload_params pyhash req.projectName req.customerEmail) with
    | Except.error m =>
        (Response.err 500 ("Failed to process video: " ++ pyExcStr (PyExc.generic m)),
         some true)
    | Except.ok r =>
        (Response.ok (mainSuccessBody cloud r), some true)
  else
    (Response.err 500
      ("Failed to process video: " ++ pyExcStr (PyExc.http 400 "File must be a video")),
     none)

/-- The /optimize-video-url success body (url fields only, as in the source). -/
structure UrlBody where
  success : Bool
  message : String
  mp4Url : String
  webmUrl : String
  posterUrl : String
  embedCode : String
deriving Repr, DecidableEq

/-- The response-mapping block of POST /optimize-video-url (url fields
only). -/
def urlSuccessBody (cloud : Cloud) (r : UploadResult) : UrlBody :=
  let mp4_url := pickMp4 r
  let webm_url := pickWebm r
  let poster_url := cloud.buildPosterUrl r.public_id
  { success := true
    message := "Video optimized successfully!"
    mp4Url := mp4_url
    webmUrl := webm_url
    posterUrl := poster_url
    embedCode := generate_embed_code mp4_url webm_url poster_url }

/-- The JSON body of POST /optimize-video-url; dict.get misses are none. -/
structure UrlRequest where
  videoFile : Option String
  projectName : Option String
  customerEmail : Option String

/-- ValueError text raised by two-name unpacking of a one-element split. -/
def unpackErr : String := "not enough values to unpack (expected 2, got 1)"

/-- POST /optimize-video-url.  The except clause converts every exception,
its own HTTPException(400) included, into a 500 whose detail embeds str(e).
The cleanup lines sit after the return statement and are unreachable, and
the except clause performs no cleanup either, so whenever the data-URL
branch created a temp file its fate is some false (left on disk). -/
def optimize_video_from_url (pyhash : String → Int) (cloud : Cloud) (req : UrlRequest) :
    Response UrlBody × Option Bool :=
  let project_name := req.projectName.getD "untitled"
  let customer_email := req.customerEmail.getD "anonymous"
  match req.videoFile with
  | none =>
      (Response.err 500
        ("Failed to process video: " ++ pyExcStr (PyExc.http 400 "No video file provided")),
       none)
  | some video_file =>
    if video_file = "" then
      (Response.err 500
        ("Failed to process video: " ++ pyExcStr (PyExc.http 400 "No video file provided")),
       none)
    else
      let staged : Except String (String × Bool) :=
        if pyStartsWith video_file "data:" then
          match pySplitOnce video_file with
          | none => Except.error unpackErr
          | some (_, encoded) =>
            match cloud.b64decode encoded with
            | Except.error m => Except.error m
            | Except.ok _ => Except.ok (tempFilePath, true)
        else
          Except.ok (video_file, false)
      match staged with
      | Except.error m =>
          (Response.err 500 ("Failed to process video: " ++ pyExcStr (PyExc.generic m)),
           none)
      | Except.ok (path, createdTemp) =>
        match cloud.upload (url_upload_params pyhash path project_name customer_email) with
        | Except.error m =>
            (Response.err 500 ("Failed to process video: " ++ pyExcStr (PyExc.generic m)),
             if createdTemp then some false else none)
        | Except.ok r =>
            (Response.ok (urlSuccessBody cloud r),
             if createdTemp then some false else none)

end Main

namespace ApiIndex

/-- The template text of api/index.py's generate_embed_code before the
poster substitution point. -/
def tplHead : String :=
  "<!-- Cinematic Landing Page Video -->\n" ++
  "<div class=\"cinematic-hero\" style=\"position: relative; width: 100%; height: 100vh; overflow: hidden;\">\n" ++
  "  <video \n" ++
  "    style=\"position: absolute; top: 50%; left: 50%; min-width: 100%; min-height: 100%; width: auto; height: auto; transform: translate(-50%, -50%); object-fit: cover; z-index: -1;\"\n" ++
  "    autoplay muted loop playsinline preload=\"auto\" "

/-- The template text of api/index.py's generate_embed_code after the mp4
source element. -/
def tplTail : String :=
  "\n  </video>\n" ++
  "  <div style=\"position: relative; z-index: 1; padding: 2rem; color: white; text-align: center; display: flex; flex-direction: column; justify-content: center; height: 100vh;\">\n" ++
  "    <h1 style=\"font-size: 3rem; margin-bottom: 1rem;\">Your Landing Page Headline</h1>\n" ++
  "    <p style=\"font-size: 1.2rem; margin-bottom: 2rem;\">Replace with your content</p>\n" ++
  "    <button style=\"background: #007cba; color: white; border: none; padding: 1rem 2rem; border-radius: 5px;\">Call to Action</button>\n" ++
  "  </div>\n" ++
  "</div>"

/-- api/index.py generate_embed_code: its (shorter) f-string template with
the three URLs substituted. -/
def generate_embed_code (mp4_url webm_url poster_url : String) : String :=
  tplHead ++ ("poster=\"" ++ poster_url ++ "\">") ++ "\n    " ++
  ("<source src=\"" ++ webm_url ++ "\" type=\"video/webm\">") ++ "\n    " ++
  ("<source src=\"" ++ mp4_url ++ "\" type=\"video/mp4\">") ++ tplTail

/-- do_GET: sends 200 and the health JSON. -/
def handler_do_GET : Nat × HealthBody :=
  (200, ⟨"Cinematic Video Optimizer API is running!", "healthy"⟩)

/-- The serverless success body. -/
structure HandlerBody where
  success : Bool
  message : String
  mp4Url : String
  webmUrl : String
  posterUrl : String
  embedCode : String
deriving Repr, DecidableEq

/-- The serverless handler's response-mapping block. -/
def handlerSuccessBody (cloud : Cloud) (r : UploadResult) : HandlerBody :=
  let mp4_url := pickMp4 r
  let webm_url := pickWebm r
  let poster_url := cloud.buildPosterUrl r.public_id
  { success := true
    message := "Video optimized successfully!"
    mp4Url := mp4_url
    webmUrl := webm_url
    posterUrl := poster_url
    embedCode := generate_embed_code mp4_url webm_url poster_url }

/-- The parsed JSON body of a POST to the serverless handler. -/
structure HandlerData where
  videoFile : Option String
  projectName : Option String
  customerEmail : Option String

/-- do_POST.  The input is the result of json.loads (Except.error carries
the parse exception's text).  The first component is the response actually
sent: none means the handler returned without writing any response (the
non-data-URL branch falls through the if with no else).  The second
component is the temp file's fate as in the endpoints above: the handler
unlinks only on the success path, so a provider failure leaves the file. -/
def handler_do_POST (cloud : Cloud) (input : Except String HandlerData) :
    Option (Response HandlerBody) × Option Bool :=
  match input with
  | Except.error m =>
      (some (Response.err 500 ("Error processing video: " ++ pyExcStr (PyExc.generic m))),
       none)
  | Except.ok d =>
    let video_file := d.videoFile.getD ""
    let project_name := d.projectName.getD "untitled"
    if video_file = "" then
      (some (Response.err 400 "No video file provided"), none)
    else
      if pyStartsWith video_file "data:" then
        match pySplitOnce video_file with
        | none =>
            (some (Response.err 500
              ("Error processing video: " ++ pyExcStr (PyExc.generic Main.unpackErr))),
             none)
        | some (_, encoded) =>
          match cloud.b64decode encoded with
          | Except.error m =>
              (some (Response.err 500
                ("Error processing video: " ++ pyExcStr (PyExc.generic m))),
               none)
          | Except.ok _ =>
            match cloud.upload (handler_upload_params project_name) with
            | Except.error m =>
                (some (Response.err 500
                  ("Error processing video: " ++ pyExcStr (PyExc.generic m))),
                 some false)
            | Except.ok r =>
                (some (Response.ok (handlerSuccessBody cloud r)), some true)
      else
        (none, none)

end ApiIndex

/-! Helper lemmas about substring containment and string lengths. -/

theorem strContains_self (t : String) : strContains t t :=
  ⟨[], [], by simp⟩

theorem strContains_appL {s t : String} (a : String) (h : strContains s t) :
    strContains (a ++ s) t := by
  obtain ⟨x, y, hxy⟩ := h
  exact ⟨a.data ++ x, y, by simp [String.data_append, hxy]⟩

theorem strContains_appR {s t : String} (b : String) (h : strContains s t) :
    strContains (s ++ b) t := by
  obtain ⟨x, y, hxy⟩ := h
  exact ⟨x, y ++ b.data, by simp [String.data_append, hxy]⟩

theorem str_length_append (a b : String) : (a ++ b).length = a.length + b.length :=
  String.length_append a b

/-! Concrete fixtures used by the closed evaluation theorems and witnesses. -/

/-- A stand-in for Python's process-salted string hash. -/
def zeroHash : String → Int := fun _ => 0

/-- A concrete successful provider result with two eager derivatives. -/
def okResult : UploadResult :=
  { secure_url := "https://res.example/orig.mp4"
    public_id := "cinematic-my-project-0"
    eager := [⟨"https://res.example/e0.mp4"⟩, ⟨"https://res.example/e1.webm"⟩] }

/-- A provider that always succeeds with the given result. -/
def okCloudOf (r : UploadResult) : Cloud :=
  { upload := fun _ => Except.ok r
    buildPosterUrl := fun _ => "https://res.example/poster.jpg"
    b64decode := fun _ => Except.ok [] }

def okCloud : Cloud := okCloudOf okResult

/-- A provider whose upload call always raises with the given message. -/
def failCloud (msg : String) : Cloud :=
  { upload := fun _ => Except.error msg
    buildPosterUrl := fun _ => "https://res.example/poster.jpg"
    b64decode := fun _ => Except.ok [] }

/-! Claim theorems. -/

/-- C1: the claim says a multipart request whose declared content type does
not begin with "video/" gets a 400.  It does not: the handler's own
HTTPException(400, "File must be a video") is caught by the enclosing
except Exception clause and re-raised as a 500, so such a request gets
HTTP 500, never 400.  Evaluation at the concrete request
(contentType "image/png", projectName "My Project",
customerEmail "user@example.com"). -/
theorem c1_nonvideo_multipart_gets_500_not_400 :
    (Main.optimize_video zeroHash okCloud
        ⟨"image/png", [], "My Project", "user@example.com"⟩).fst
      = Response.err 500 "Failed to process video: 400: File must be a video"
    ∧ (Main.optimize_video zeroHash okCloud
        ⟨"image/png", [], "My Project", "user@example.com"⟩).fst.status = 500 := by
  exact ⟨rfl, rfl⟩

/-- C2: the claim says an empty or missing video payload gets a 400 in
every variant.  On POST /optimize-video-url the handler's
HTTPException(400, "No video file provided") is swallowed by the blanket
except clause and re-raised as a 500; only the serverless handler actually
sends a 400.  Evaluation at videoFile = "" for both. -/
theorem c2_empty_payload_url_endpoint_gets_500 :
    (Main.optimize_video_from_url zeroHash okCloud ⟨some "", none, none⟩).fst
      = Response.err 500 "Failed to process video: 400: No video file provided"
    ∧ (Main.optimize_video_from_url zeroHash okCloud ⟨none, none, none⟩).fst
      = Response.err 500 "Failed to process video: 400: No video file provided"
    ∧ (ApiIndex.handler_do_POST okCloud (Except.ok ⟨some "", none, none⟩)).fst
      = some (Response.err 400 "No video file provided") := by
  exact ⟨rfl, rfl, rfl⟩

/-- C3: the claim says every temporary file created during a request is
gone when the request completes, on success and failure alike.  It is not:
on POST /optimize-video-url the cleanup lines sit after the return
statement (unreachable) and the except clause does no cleanup, so the
data-URL branch leaves its temp file on disk both when the provider
succeeds and when it raises; the serverless handler likewise skips its
unlink when the provider raises.  Evaluation at concrete data-URL
requests (the temp-file fate component some false means created and left
on disk). -/
theorem c3_temp_file_left_on_disk :
    (Main.optimize_video_from_url zeroHash okCloud
        ⟨some "data:,AAAA", some "My Project", some "user@example.com"⟩).snd = some false
    ∧ (Main.optimize_video_from_url zeroHash (failCloud "boom")
        ⟨some "data:,AAAA", some "My Project", some "user@example.com"⟩).snd = some false
    ∧ (ApiIndex.handler_do_POST (failCloud "boom")
        (Except.ok ⟨some "data:,AAAA", some "My Project", none⟩)).snd = some false := by
  exact ⟨rfl, rfl, rfl⟩

/-- C7: both embed generators are pure functions of their three URL
arguments: equal inputs give byte-identical outputs, and mapping them over
any permuted sequence of calls permutes the outputs accordingly (order and
repetition independence). -/
theorem c7_generate_embed_code_deterministic (a b c a2 b2 c2 : String)
    (h1 : a = a2) (h2 : b = b2) (h3 : c = c2) :
    Main.generate_embed_code a b c = Main.generate_embed_code a2 b2 c2
    ∧ ApiIndex.generate_embed_code a b c = ApiIndex.generate_embed_code a2 b2 c2
    ∧ ∀ l1 l2 : List (String × String × String), l1.Perm l2 →
        (l1.map fun t => Main.generate_embed_code t.1 t.2.1 t.2.2).Perm
          (l2.map fun t => Main.generate_embed_code t.1 t.2.1 t.2.2) := by
  subst h1 h2 h3
  exact ⟨rfl, rfl, fun _ _ hp => hp.map _⟩

/-- Witness for C7 at concrete URLs. -/
theorem c7_generate_embed_code_deterministic_witness :
    Main.generate_embed_code "https://m" "https://w" "https://p"
      = Main.generate_embed_code "https://m" "https://w" "https://p" :=
  (c7_generate_embed_code_deterministic "https://m" "https://w" "https://p"
    "https://m" "https://w" "https://p" rfl rfl rfl).1

/-- C8: GET / answers 200 with status field "healthy" (and a string
message) in both the FastAPI app and the serverless handler. -/
theorem c8_health_check :
    Main.root.1 = 200 ∧ Main.root.2.status = "healthy"
    ∧ Main.root.2.message = "Cinematic Video Optimizer API is running!"
    ∧ ApiIndex.handler_do_GET.1 = 200 ∧ ApiIndex.handler_do_GET.2.status = "healthy"
    ∧ ApiIndex.handler_do_GET.2.message = "Cinematic Video Optimizer API is running!" :=
  ⟨rfl, rfl, rfl, rfl, rfl, rfl⟩

/-- C9: a serverless POST whose body parses as JSON and whose videoFile is
a non-empty string that does not start with "data:" falls through the
data-URL if-branch, which has no else: the handler returns having sent no
response at all (and created no temp file). -/
theorem c9_non_data_url_sends_no_response (cloud : Cloud) (d : ApiIndex.HandlerData)
    (vf : String) (h1 : d.videoFile = some vf) (h2 : vf ≠ "")
    (h3 : pyStartsWith vf "data:" = false) :
    ApiIndex.handler_do_POST cloud (Except.ok d) = (none, none) := by
  simp [ApiIndex.handler_do_POST, h1, h2, h3]

/-- Witness for C9 at videoFile "https://example.com/v.mp4". -/
theorem c9_non_data_url_sends_no_response_witness :
    ApiIndex.handler_do_POST okCloud
      (Except.ok ⟨some "https://example.com/v.mp4", none, none⟩) = (none, none) :=
  c9_non_data_url_sends_no_response okCloud ⟨some "https://example.com/v.mp4", none, none⟩
    "https://example.com/v.mp4" rfl (by decide) (by decide)

/-! Containment of the substituted URLs in the two embed templates. -/

theorem main_embed_contains_webm (m w p : String) :
    strContains (Main.generate_embed_code m w p)
      ("<source src=\"" ++ w ++ "\" type=\"video/webm\">") := by
  unfold Main.generate_embed_code
  exact strContains_appR _ (strContains_appR _ (strContains_appR _
    (strContains_appL _ (strContains_self _))))

theorem main_embed_contains_mp4 (m w p : String) :
    strContains (Main.generate_embed_code m w p)
      ("<source src=\"" ++ m ++ "\" type=\"video/mp4\">") := by
  unfold Main.generate_embed_code
  exact strContains_appR _ (strContains_appL _ (strContains_self _))

theorem main_embed_contains_poster (m w p : String) :
    strContains (Main.generate_embed_code m w p) ("poster=\"" ++ p ++ "\">") := by
  unfold Main.generate_embed_code
  exact strContains_appR _ (strContains_appR _ (strContains_appR _ (strContains_appR _
    (strContains_appR _ (strContains_appL _ (strContains_self _))))))

theorem api_embed_contains_webm (m w p : String) :
    strContains (ApiIndex.generate_embed_code m w p)
      ("<source src=\"" ++ w ++ "\" type=\"video/webm\">") := by
  unfold ApiIndex.generate_embed_code
  exact strContains_appR _ (strContains_appR _ (strContains_appR _
    (strContains_appL _ (strContains_self _))))

theorem api_embed_contains_mp4 (m w p : String) :
    strContains (ApiIndex.generate_embed_code m w p)
      ("<source src=\"" ++ m ++ "\" type=\"video/mp4\">") := by
  unfold ApiIndex.generate_embed_code
  exact strContains_appR _ (strContains_appL _ (strContains_self _))

theorem api_embed_contains_poster (m w p : String) :
    strContains (ApiIndex.generate_embed_code m w p) ("poster=\"" ++ p ++ "\">") := by
  unfold ApiIndex.generate_embed_code
  exact strContains_appR _ (strContains_appR _ (strContains_appR _ (strContains_appR _
    (strContains_appR _ (strContains_appL _ (strContains_self _))))))

/-- The extracted mp4 URL is non-empty when the provider's URLs are. -/
theorem pickMp4_ne_empty (r : UploadResult) (h1 : r.secure_url ≠ "")
    (h2 : ∀ x ∈ r.eager, x.secure_url ≠ "") : pickMp4 r ≠ "" := by
  rcases r with ⟨su, pid, eg⟩
  cases eg with
  | nil => exact h1
  | cons e es => exact h2 e (List.mem_cons_self e es)

/-- The extracted webm URL is non-empty when the provider's URLs are. -/
theorem pickWebm_ne_empty (r : UploadResult) (h1 : r.secure_url ≠ "")
    (h2 : ∀ x ∈ r.eager, x.secure_url ≠ "") : pickWebm r ≠ "" := by
  rcases r with ⟨su, pid, eg⟩
  cases eg with
  | nil => exact h1
  | cons e es =>
    cases es with
    | nil => exact h1
    | cons e2 es2 => exact h2 e2 (by simp)

/-- C4: on a successful provider call, POST /optimize-video answers with
the mapped body, whose mp4, webm and poster URLs are non-empty (given that
the provider returned URL strings), and both embed templates contain the
webm and mp4 URLs as source src values and the poster URL as the poster
attribute. -/
theorem c4_success_response_urls_and_embed (pyhash : String → Int) (cloud : Cloud)
    (req : Main.MultipartRequest) (r : UploadResult)
    (hct : pyStartsWith req.contentType "video/" = true)
    (hup : cloud.upload (main_upload_params pyhash req.projectName req.customerEmail)
      = Except.ok r)
    (h1 : r.secure_url ≠ "")
    (h2 : ∀ x ∈ r.eager, x.secure_url ≠ "")
    (h3 : cloud.buildPosterUrl r.public_id ≠ "") :
    (Main.optimize_video pyhash cloud req).fst = Response.ok (Main.mainSuccessBody cloud r)
    ∧ (Main.mainSuccessBody cloud r).mp4.url ≠ ""
    ∧ (Main.mainSuccessBody cloud r).webm.url ≠ ""
    ∧ (Main.mainSuccessBody cloud r).poster.url ≠ ""
    ∧ strContains (Main.mainSuccessBody cloud r).embedCode
        ("<source src=\"" ++ (Main.mainSuccessBody cloud r).webm.url ++ "\" type=\"video/webm\">")
    ∧ strContains (Main.mainSuccessBody cloud r).embedCode
        ("<source src=\"" ++ (Main.mainSuccessBody cloud r).mp4.url ++ "\" type=\"video/mp4\">")
    ∧ strContains (Main.mainSuccessBody cloud r).embedCode
        ("poster=\"" ++ (Main.mainSuccessBody cloud r).poster.url ++ "\">")
    ∧ strContains (ApiIndex.handlerSuccessBody cloud r).embedCode
        ("<source src=\"" ++ (ApiIndex.handlerSuccessBody cloud r).webmUrl ++ "\" type=\"video/webm\">")
    ∧ strContains (ApiIndex.handlerSuccessBody cloud r).embedCode
        ("<source src=\"" ++ (ApiIndex.handlerSuccessBody cloud r).mp4Url ++ "\" type=\"video/mp4\">")
    ∧ strContains (ApiIndex.handlerSuccessBody cloud r).embedCode
        ("poster=\"" ++ (ApiIndex.handlerSuccessBody cloud r).posterUrl ++ "\">") := by
  refine ⟨?_, ?_, ?_, ?_, ?_, ?_, ?_, ?_, ?_, ?_⟩
  · simp [Main.optimize_video, hct, hup]
  · exact pickMp4_ne_empty r h1 h2
  · exact pickWebm_ne_empty r h1 h2
  · exact h3
  · exact main_embed_contains_webm _ _ _
  · exact main_embed_contains_mp4 _ _ _
  · exact main_embed_contains_poster _ _ _
  · exact api_embed_contains_webm _ _ _
  · exact api_embed_contains_mp4 _ _ _
  · exact api_embed_contains_poster _ _ _

/-- Witness for C4 at a concrete request and provider result. -/
theorem c4_success_response_urls_and_embed_witness :
    (Main.optimize_video zeroHash okCloud
        ⟨"video/mp4", [], "My Project", "user@example.com"⟩).fst
      = Response.ok (Main.mainSuccessBody okCloud okResult) :=
  (c4_success_response_urls_and_embed zeroHash okCloud
    ⟨"video/mp4", [], "My Project", "user@example.com"⟩ okResult
    (by decide) rfl (by decide) (by decide) (by decide)).1

/-- The spec's description of the derived identifier for main.py's
endpoints: the project name lower-cased with spaces replaced by hyphens,
joined with the customer email's hash taken mod 10000. -/
def specDerivedId (pyhash : String → Int) (projectName customerEmail : String) : String :=
  "cinematic-" ++ pyReplaceSpaceHyphen (pyLower projectName) ++ "-"
    ++ toString (pyhash customerEmail % 10000)

/-- C5 counterexample: the claim says the email-hash derivation holds in
the serverless handler too.  It does not: the handler's identifier for
project "My Project" is exactly "cinematic-my-project", and no hash value
can make the claimed shape (which appends "-" and a hash rendering) equal
to it, already for length reasons. -/
theorem c5_counterexample_handler_id_lacks_email_hash :
    (handler_upload_params "My Project").public_id = "cinematic-my-project"
    ∧ ¬ ∃ n : Nat, (handler_upload_params "My Project").public_id
        = "cinematic-" ++ pySlug "My Project" ++ "-" ++ toString n := by
  constructor
  · rfl
  · rintro ⟨n, hn⟩
    have hpre : ("cinematic-" ++ pySlug "My Project") ++ "-" = "cinematic-my-project-" := by
      decide
    rw [hpre] at hn
    have hL := congrArg String.length hn
    rw [str_length_append] at hL
    have e1 : ((handler_upload_params "My Project").public_id).length = 20 := by decide
    have e2 : ("cinematic-my-project-" : String).length = 21 := by decide
    rw [e1, e2] at hL
    omega

/-- C5 amended: both main.py endpoints derive the identifier from the
slugged project name together with hash(customerEmail) mod 10000 and
upload with overwrite=True; the serverless handler derives it from the
slugged project name only (no email hash), also with overwrite=True. -/
theorem c5_amended_identifier_and_overwrite (pyhash : String → Int) (p em fp : String) :
    (main_upload_params pyhash p em).public_id = specDerivedId pyhash p em
    ∧ (main_upload_params pyhash p em).overwrite = true
    ∧ (url_upload_params pyhash fp p em).public_id = specDerivedId pyhash p em
    ∧ (url_upload_params pyhash fp p em).overwrite = true
    ∧ (handler_upload_params p).public_id = "cinematic-" ++ pyReplaceSpaceHyphen (pyLower p)
    ∧ (handler_upload_params p).overwrite = true :=
  ⟨rfl, rfl, rfl, rfl, rfl, rfl⟩

/-- C6: whenever the provider's upload call raises, each of the three
handlers answers 500 with a detail that embeds the original failure text:
"Failed to process video: " + str(e) on the two FastAPI endpoints and
"Error processing video: " + str(e) on the serverless handler. -/
theorem c6_provider_failure_yields_500_with_message (pyhash : String → Int) (cloud : Cloud)
    (msg : String) (hup : ∀ ps, cloud.upload ps = Except.error msg)
    (req1 : Main.MultipartRequest) (h1 : pyStartsWith req1.contentType "video/" = true)
    (req2 : Main.UrlRequest) (vf : String) (h2 : req2.videoFile = some vf)
    (h3 : vf ≠ "") (h4 : pyStartsWith vf "data:" = false)
    (d : ApiIndex.HandlerData) (vf3 hdr enc : String) (hd : d.videoFile = some vf3)
    (h5 : vf3 ≠ "") (h6 : pyStartsWith vf3 "data:" = true)
    (h7 : pySplitOnce vf3 = some (hdr, enc))
    (bs : List UInt8) (h8 : cloud.b64decode enc = Except.ok bs) :
    (Main.optimize_video pyhash cloud req1).fst
      = Response.err 500 ("Failed to process video: " ++ msg)
    ∧ (Main.optimize_video_from_url pyhash cloud req2).fst
      = Response.err 500 ("Failed to process video: " ++ msg)
    ∧ (ApiIndex.handler_do_POST cloud (Except.ok d)).fst
      = some (Response.err 500 ("Error processing video: " ++ msg))
    ∧ strContains ("Failed to process video: " ++ msg) msg
    ∧ strContains ("Error processing video: " ++ msg) msg := by
  refine ⟨?_, ?_, ?_, ?_, ?_⟩
  · simp [Main.optimize_video, h1, hup, pyExcStr]
  · simp [Main.optimize_video_from_url, h2, h3, h4, hup, pyExcStr]
  · simp [ApiIndex.handler_do_POST, hd, h5, h6, h7, h8, hup, pyExcStr]
  · exact strContains_appL _ (strContains_self _)
  · exact strContains_appL _ (strContains_self _)

/-- Witness for C6 with a provider that always raises "simulated upload
failure". -/
theorem c6_provider_failure_yields_500_with_message_witness :
    (Main.optimize_video zeroHash (failCloud "simulated upload failure")
        ⟨"video/mp4", [], "My Project", "user@example.com"⟩).fst
      = Response.err 500 ("Failed to process video: " ++ "simulated upload failure") :=
  (c6_provider_failure_yields_500_with_message zeroHash (failCloud "simulated upload failure")
    "simulated upload failure" (fun _ => rfl)
    ⟨"video/mp4", [], "My Project", "user@example.com"⟩ (by decide)
    ⟨some "https://example.com/v.mp4", none, none⟩ "https://example.com/v.mp4" rfl
    (by decide) (by decide)
    ⟨some "data:,AAAA", none, none⟩ "data:,AAAA" "data:" "AAAA" rfl
    (by decide) (by decide) rfl [] rfl).1

/-- A concrete provider result with an empty eager list. -/
def emptyEagerResult : UploadResult :=
  { secure_url := "https://res.example/orig.mp4"
    public_id := "cinematic-my-project-0"
    eager := [] }

/-- A concrete provider result with a single eager entry. -/
def singleEagerResult : UploadResult :=
  { secure_url := "https://res.example/orig.mp4"
    public_id := "cinematic-my-project-0"
    eager := [⟨"https://res.example/e0.mp4"⟩] }

/-- C10: with an empty eager list both derivative URLs fall back to the
original secure URL; with exactly one eager entry the webm URL falls back
while the mp4 URL takes that entry's secure URL.  This holds in the mapped
bodies of both FastAPI endpoints and the serverless handler, and each
handler returns exactly that mapped body on success. -/
theorem c10_eager_fallbacks (pyhash : String → Int) (cloud0 cloud1 : Cloud)
    (r0 r1 : UploadResult) (e : EagerEntry)
    (h0 : r0.eager = []) (h1 : r1.eager = [e])
    (hup0 : ∀ ps, cloud0.upload ps = Except.ok r0)
    (hup1 : ∀ ps, cloud1.upload ps = Except.ok r1)
    (req1 : Main.MultipartRequest) (hct : pyStartsWith req1.contentType "video/" = true)
    (req2 : Main.UrlRequest) (vf : String) (h2 : req2.videoFile = some vf)
    (h3 : vf ≠ "") (h4 : pyStartsWith vf "data:" = false)
    (d : ApiIndex.HandlerData) (vf3 hdr enc : String) (hd : d.videoFile = some vf3)
    (h5 : vf3 ≠ "") (h6 : pyStartsWith vf3 "data:" = true)
    (h7 : pySplitOnce vf3 = some (hdr, enc))
    (bs : List UInt8) (h8 : cloud0.b64decode enc = Except.ok bs) :
    (Main.mainSuccessBody cloud0 r0).mp4.url = r0.secure_url
    ∧ (Main.mainSuccessBody cloud0 r0).webm.url = r0.secure_url
    ∧ (Main.urlSuccessBody cloud0 r0).mp4Url = r0.secure_url
    ∧ (Main.urlSuccessBody cloud0 r0).webmUrl = r0.secure_url
    ∧ (ApiIndex.handlerSuccessBody cloud0 r0).mp4Url = r0.secure_url
    ∧ (ApiIndex.handlerSuccessBody cloud0 r0).webmUrl = r0.secure_url
    ∧ (Main.mainSuccessBody cloud1 r1).mp4.url = e.secure_url
    ∧ (Main.mainSuccessBody cloud1 r1).webm.url = r1.secure_url
    ∧ (Main.urlSuccessBody cloud1 r1).mp4Url = e.secure_url
    ∧ (Main.urlSuccessBody cloud1 r1).webmUrl = r1.secure_url
    ∧ (ApiIndex.handlerSuccessBody cloud1 r1).mp4Url = e.secure_url
    ∧ (ApiIndex.handlerSuccessBody cloud1 r1).webmUrl = r1.secure_url
    ∧ (Main.optimize_video pyhash cloud0 req1).fst
      = Response.ok (Main.mainSuccessBody cloud0 r0)
    ∧ (Main.optimize_video_from_url pyhash cloud0 req2).fst
      = Response.ok (Main.urlSuccessBody cloud0 r0)
    ∧ (ApiIndex.handler_do_POST cloud0 (Except.ok d)).fst
      = some (Response.ok (ApiIndex.handlerSuccessBody cloud0 r0))
    ∧ (Main.optimize_video pyhash cloud1 req1).fst
      = Response.ok (Main.mainSuccessBody cloud1 r1) := by
  refine ⟨?_, ?_, ?_, ?_, ?_, ?_, ?_, ?_, ?_, ?_, ?_, ?_, ?_, ?_, ?_, ?_⟩
  · simp [Main.mainSuccessBody, pickMp4, h0]
  · simp [Main.mainSuccessBody, pickWebm, h0]
  · simp [Main.urlSuccessBody, pickMp4, h0]
  · simp [Main.urlSuccessBody, pickWebm, h0]
  · simp [ApiIndex.handlerSuccessBody, pickMp4, h0]
  · simp [ApiIndex.handlerSuccessBody, pickWebm, h0]
  · simp [Main.mainSuccessBody, pickMp4, h1]
  · simp [Main.mainSuccessBody, pickWebm, h1]
  · simp [Main.urlSuccessBody, pickMp4, h1]
  · simp [Main.urlSuccessBody, pickWebm, h1]
  · simp [ApiIndex.handlerSuccessBody, pickMp4, h1]
  · simp [ApiIndex.handlerSuccessBody, pickWebm, h1]
  · simp [Main.optimize_video, hct, hup0]
  · simp [Main.optimize_video_from_url, h2, h3, h4, hup0]
  · simp [ApiIndex.handler_do_POST, hd, h5, h6, h7, h8, hup0]
  · simp [Main.optimize_video, hct, hup1]

/-- Witness for C10 at concrete provider results. -/
theorem c10_eager_fallbacks_witness :
    (Main.mainSuccessBody (okCloudOf emptyEagerResult) emptyEagerResult).mp4.url
      = emptyEagerResult.secure_url :=
  (c10_eager_fallbacks zeroHash (okCloudOf emptyEagerResult) (okCloudOf singleEagerResult)
    emptyEagerResult singleEagerResult ⟨"https://res.example/e0.mp4"⟩ rfl rfl
    (fun _ => rfl) (fun _ => rfl)
    ⟨"video/mp4", [], "My Project", "user@example.com"⟩ (by decide)
    ⟨some "https://example.com/v.mp4", none, none⟩ "https://example.com/v.mp4" rfl
    (by decide) (by decide)
    ⟨some "data:,AAAA", none, none⟩ "data:,AAAA" "data:" "AAAA" rfl
    (by decide) (by decide) rfl [] rfl).1

end Cinematic
